import Mathlib

/-!
Verification of the Batch Inference & Forecasting Orchestration core of the
brain-tumor detection backend.  The repository ships only its README and the
browser UI (static/script.js); the Python modules implementing the core
(app/simulate.py, app/predict.py, app/main.py) are not part of the visible
source, so the Growth & Symptom Simulator, the Report Assembler and the
Batch Orchestrator are modelled here from the specification, using exact
rational arithmetic in place of floating point.
-/

namespace BrainTumor

/-- The four categorical outputs of the pretrained classifier. -/
inductive Label
  | glioma
  | meningioma
  | pituitary
  | noTumor
  deriving DecidableEq, Repr

/-- Display name of a label, as used for probability-map keys. -/
def Label.name : Label → String
  | .glioma => "Glioma"
  | .meningioma => "Meningioma"
  | .pituitary => "Pituitary"
  | .noTumor => "No Tumor"

/-- The recognized probability-map keys. -/
def recognizedLabels : List String :=
  ["Glioma", "Meningioma", "Pituitary", "No Tumor"]

/-- Modelled from the spec: the symptom-band function of app/simulate.py
(absent from the visible source).  Four half-open bands of tumor size,
inclusive on the lower edge, exclusive on the upper edge, the last band
unbounded; each band carries a fixed ordered symptom list. -/
def symptom_band (s : ℚ) : List String :=
  if s < 2 then ["Mild headache"]
  else if s < 4 then ["Fatigue", "Blurred vision"]
  else if s < 6 then ["Memory loss", "Speech difficulty"]
  else ["Seizures", "Cognitive decline"]

/-- Fixed growth rate, 0.4 cm² per month, identical for every tumor type. -/
def growth_rate : ℚ := 0.4

/-- Fixed projection horizon of 3 months. -/
def horizon_months : ℚ := 3

/-- Size, growth and symptom fields attached to a tumor report. -/
structure GrowthForecast where
  current_size_cm2 : ℚ
  growth_rate_cm2_per_month : ℚ
  projected_size_cm2 : ℚ
  current_symptoms : List String
  future_symptoms : List String
  deriving DecidableEq, Repr

/-- Modelled from the spec: the size draw of app/simulate.py (absent from the
visible source) samples uniformly from the domain [2.0, 5.0] cm²; the unit
sample u ∈ [0, 1] standing for the underlying random draw is made explicit,
so one draw is one value of u. -/
def draw_size (u : ℚ) : ℚ := 2 + 3 * u

/-- Modelled from the spec: the tumor-path body of simulate in
app/simulate.py (absent from the visible source).  The size is drawn once
and reused for the projection and for both symptom derivations. -/
def simulateTumor (u : ℚ) : GrowthForecast :=
  let size := draw_size u
  let projected := size + growth_rate * horizon_months
  { current_size_cm2 := size,
    growth_rate_cm2_per_month := growth_rate,
    projected_size_cm2 := projected,
    current_symptoms := symptom_band size,
    future_symptoms := symptom_band projected }

/-- Modelled from the spec: simulate of app/simulate.py (absent from the
visible source).  Returns nothing for the no-tumor label; otherwise produces
the forecast from a single size draw. -/
def simulate : Label → ℚ → Option GrowthForecast
  | .noTumor, _ => none
  | _, u => some (simulateTumor u)

/-- The classifier's output for one image: the winning label and the
probability distribution over the four categories, keyed by display name. -/
structure ClassificationResult where
  label : Label
  probabilities : List (String × ℚ)
  deriving DecidableEq, Repr

/-- Probability mass the distribution assigns to a given key. -/
def probOf (c : ClassificationResult) (key : String) : ℚ :=
  (c.probabilities.lookup key).getD 0

/-- Sum of all probability entries of a distribution. -/
def probSum (c : ClassificationResult) : ℚ :=
  (c.probabilities.map Prod.snd).sum

/-- Modelled from the spec: the floating tolerance within which the
distribution must sum to 1. -/
def prob_tolerance : ℚ := 1 / 1000000

/-- Modelled from the spec: the distribution check of the Report Assembler
(absent from the visible source): the probabilities sum to approximately 1
and every key is a recognized label. -/
def validDistribution (c : ClassificationResult) : Bool :=
  decide (|probSum c - 1| ≤ prob_tolerance) &&
    c.probabilities.all (fun p => recognizedLabels.contains p.1)

/-- The only assembler-level failure. -/
inductive AssembleError
  | invalidClassification
  deriving DecidableEq, Repr

/-- Fixed informational message of the no-tumor report shape. -/
def no_tumor_message : String := "No tumor detected"

/-- Modelled from the spec: the three fixed analysis_notes template strings,
generic across all tumor types. -/
def note_size_estimation : String :=
  "Tumor size is simulated within the 2.0 to 5.0 cm2 domain"

/-- Modelled from the spec: fixed growth-model note string. -/
def note_growth_model : String :=
  "Growth projected at a fixed rate of 0.4 cm2 per month over 3 months"

/-- Modelled from the spec: fixed symptoms note string. -/
def note_symptoms : String :=
  "Expected symptoms derived from fixed size thresholds"

/-- A per-image diagnostic report, discriminated by whether a tumor was
detected; the tumor shape embeds the forecast, the full distribution and the
three analysis notes. -/
inductive DiagnosticReport
  | noTumorReport (confidence : ℚ) (message : String) (timestamp : String)
  | tumorReport (tumor_type : String) (confidence : ℚ) (forecast : GrowthForecast)
      (all_probabilities : List (String × ℚ))
      (size_estimation : String) (growth_model : String) (symptoms : String)
      (timestamp : String)
  deriving DecidableEq, Repr

/-- The discriminating flag of a report. -/
def DiagnosticReport.tumor_detected : DiagnosticReport → Bool
  | .noTumorReport .. => false
  | .tumorReport .. => true

/-- The growth-forecast fields carried by a report, when present. -/
def DiagnosticReport.getForecast : DiagnosticReport → Option GrowthForecast
  | .noTumorReport .. => none
  | .tumorReport _ _ f _ _ _ _ _ => some f

/-- Modelled from the spec: assemble of the Report Assembler (absent from the
visible source).  Validates the distribution first; on the no-tumor path
builds the fixed-message shape without consulting the simulator; on the tumor
path invokes the simulator with the current draw and embeds its forecast. -/
def assemble (c : ClassificationResult) (u : ℚ) (timestamp : String) :
    Except AssembleError DiagnosticReport :=
  if validDistribution c then
    match c.label with
    | .noTumor =>
        .ok (.noTumorReport (probOf c "No Tumor") no_tumor_message timestamp)
    | l =>
        .ok (.tumorReport l.name (probOf c l.name) (simulateTumor u)
          c.probabilities note_size_estimation note_growth_model note_symptoms
          timestamp)
  else .error .invalidClassification

/-- Kinds of per-item failure recorded in a batch slot. -/
inductive ItemErrorKind
  | formatError
  | classifierError
  | validationError
  deriving DecidableEq, Repr

/-- A tagged per-item failure: kind plus message. -/
structure ErrorRecord where
  kind : ItemErrorKind
  message : String
  deriving DecidableEq, Repr

/-- One slot of a batch result: a report or an error record. -/
inductive BatchItemOutcome
  | success (report : DiagnosticReport)
  | failure (error : ErrorRecord)
  deriving DecidableEq, Repr

/-- Whether a slot holds a successful report. -/
def BatchItemOutcome.isSuccess : BatchItemOutcome → Bool
  | .success _ => true
  | .failure _ => false

/-- Ordered per-item outcomes, one per submitted image, plus aggregate
counts computed from the outcome sequence. -/
structure BatchResult where
  outcomes : List BatchItemOutcome
  succeeded : ℕ
  failed : ℕ
  deriving DecidableEq, Repr

/-- Request-level rejections at the admission boundary. -/
inductive AdmissionError
  | emptyBatch
  | batchTooLarge
  deriving DecidableEq, Repr

/-- Hard cap on batch size. -/
def max_batch_size : ℕ := 10

/-- Converts one image's processing result into its slot outcome. -/
def itemOutcome {Image : Type} (proc : Image → Except ErrorRecord DiagnosticReport)
    (img : Image) : BatchItemOutcome :=
  match proc img with
  | .ok r => .success r
  | .error e => .failure e

/-- Modelled from the spec: run_batch of the Batch Orchestrator (absent from
the visible source).  The per-image pipeline decode → classify → assemble is
abstracted as the processing function proc, since decoding and the
classifier are external collaborators.  Admission checks run before any
per-image work; admitted batches map each image independently to its own
slot in submission order, and the aggregate counts are computed from the
outcome sequence. -/
def run_batch {Image : Type} (proc : Image → Except ErrorRecord DiagnosticReport)
    (images : List Image) : Except AdmissionError BatchResult :=
  if images.length = 0 then .error .emptyBatch
  else if max_batch_size < images.length then .error .batchTooLarge
  else
    let outs := images.map (itemOutcome proc)
    .ok { outcomes := outs,
          succeeded := (outs.filter (fun o => o.isSuccess)).length,
          failed := (outs.filter (fun o => !o.isSuccess)).length }

/-- A JSON-like value for the wire shape of a report. -/
inductive WireValue
  | boolV (b : Bool)
  | numV (q : ℚ)
  | strV (s : String)
  | strListV (l : List String)
  | numMapV (m : List (String × ℚ))
  | strMapV (m : List (String × String))
  deriving DecidableEq, Repr

/-- Modelled from the spec: the external JSON shape of a report as produced
by the API layer (absent from the visible source), field names exactly as
the wire contract lists them. -/
def toWire : DiagnosticReport → List (String × WireValue)
  | .noTumorReport conf msg ts =>
      [("tumor_detected", .boolV false),
       ("message", .strV msg),
       ("confidence", .numV conf),
       ("timestamp", .strV ts)]
  | .tumorReport ty conf f probs n1 n2 n3 ts =>
      [("tumor_detected", .boolV true),
       ("tumor_type", .strV ty),
       ("confidence", .numV conf),
       ("current_size_cm2", .numV f.current_size_cm2),
       ("predicted_size_after_3_months", .numV f.projected_size_cm2),
       ("growth_rate_cm2_per_month", .numV f.growth_rate_cm2_per_month),
       ("current_expected_symptoms", .strListV f.current_symptoms),
       ("future_expected_symptoms", .strListV f.future_symptoms),
       ("all_probabilities", .numMapV probs),
       ("analysis_notes", .strMapV
         [("size_estimation", n1), ("growth_model", n2), ("symptoms", n3)]),
       ("timestamp", .strV ts)]

/-- The field names of the tumor-detected wire shape, in order. -/
def tumor_report_field_names : List String :=
  ["tumor_detected", "tumor_type", "confidence", "current_size_cm2",
   "predicted_size_after_3_months", "growth_rate_cm2_per_month",
   "current_expected_symptoms", "future_expected_symptoms",
   "all_probabilities", "analysis_notes", "timestamp"]

/-- Example classifier distribution used for concrete instantiations. -/
def exampleDist : List (String × ℚ) :=
  [("Glioma", 91/100), ("Meningioma", 5/100), ("Pituitary", 2/100),
   ("No Tumor", 2/100)]

/-- Example classification with winning label Glioma. -/
def exampleGlioma : ClassificationResult :=
  { label := .glioma, probabilities := exampleDist }

/-- Example classification with winning label No Tumor. -/
def exampleNoTumor : ClassificationResult :=
  { label := .noTumor,
    probabilities :=
      [("Glioma", 1/100), ("Meningioma", 2/100), ("Pituitary", 2/100),
       ("No Tumor", 95/100)] }

/-- Example malformed classification: the distribution sums to 1/2. -/
def badDist : ClassificationResult :=
  { label := .glioma, probabilities := [("Glioma", 1/2)] }

/-- Example per-image processing function over index-numbered images: image
1 is undecodable, every other image yields a report. -/
def wProc : ℕ → Except ErrorRecord DiagnosticReport :=
  fun n =>
    if n = 1 then .error { kind := .formatError, message := "undecodable image" }
    else .ok (.noTumorReport (19/20) no_tumor_message "2024-01-01T12:00:00")

/-- A second example processing function, everywhere failing. -/
def wProc2 : ℕ → Except ErrorRecord DiagnosticReport :=
  fun _ => .error { kind := .classifierError, message := "inference failure" }

/-- Example admitted batch of three images. -/
def wImages : List ℕ := [0, 1, 2]

/-- Any successful simulation result is the single-draw forecast. -/
theorem simulate_eq_some {L : Label} {u : ℚ} {f : GrowthForecast}
    (h : simulate L u = some f) : f = simulateTumor u := by
  cases L <;> simp [simulate] at h <;> exact h.symm

/-- An admitted batch maps each image independently into its slot. -/
theorem run_batch_eq_ok {Image : Type}
    (proc : Image → Except ErrorRecord DiagnosticReport)
    (images : List Image) (h1 : images.length ≠ 0)
    (h2 : ¬ max_batch_size < images.length) :
    run_batch proc images =
      .ok { outcomes := images.map (itemOutcome proc),
            succeeded :=
              ((images.map (itemOutcome proc)).filter
                (fun o => o.isSuccess)).length,
            failed :=
              ((images.map (itemOutcome proc)).filter
                (fun o => !o.isSuccess)).length } := by
  unfold run_batch
  rw [if_neg h1, if_neg h2]

/-- C3: for every tumor label, the forecast returned by simulate satisfies
projected_size_cm2 − current_size_cm2 = 0.4 × 3, regardless of the size
draw. -/
theorem simulate_growth_delta (L : Label) (u : ℚ) (f : GrowthForecast)
    (h : simulate L u = some f) :
    f.projected_size_cm2 - f.current_size_cm2 = 0.4 * 3 := by
  rw [simulate_eq_some h]
  simp [simulateTumor, growth_rate, horizon_months]

/-- C3 witness: the concrete forecast for Glioma at draw 1/2. -/
theorem simulate_growth_delta_witness :
    (simulateTumor (1/2)).projected_size_cm2 -
      (simulateTumor (1/2)).current_size_cm2 = 0.4 * 3 :=
  simulate_growth_delta .glioma (1/2) (simulateTumor (1/2)) rfl

/-- C4: the symptom-band function maps every size s ≥ 0 to exactly one of
four fixed ordered symptom lists, with bands inclusive below and exclusive
above, the last band unbounded, contiguous and exhaustive. -/
theorem symptom_band_spec (s : ℚ) (h : 0 ≤ s) :
    ((s < 2 → symptom_band s = ["Mild headache"]) ∧
     (2 ≤ s → s < 4 → symptom_band s = ["Fatigue", "Blurred vision"]) ∧
     (4 ≤ s → s < 6 → symptom_band s = ["Memory loss", "Speech difficulty"]) ∧
     (6 ≤ s → symptom_band s = ["Seizures", "Cognitive decline"])) ∧
    (symptom_band s = ["Mild headache"] ∨
     symptom_band s = ["Fatigue", "Blurred vision"] ∨
     symptom_band s = ["Memory loss", "Speech difficulty"] ∨
     symptom_band s = ["Seizures", "Cognitive decline"]) := by
  unfold symptom_band
  split_ifs with h1 h2 h3
  · exact ⟨⟨fun _ => rfl, fun ha _ => by linarith, fun ha _ => by linarith,
      fun ha => by linarith⟩, Or.inl rfl⟩
  · exact ⟨⟨fun ha => by linarith, fun _ _ => rfl, fun ha _ => by linarith,
      fun ha => by linarith⟩, Or.inr (Or.inl rfl)⟩
  · exact ⟨⟨fun ha => by linarith, fun _ hb => by linarith, fun _ _ => rfl,
      fun ha => by linarith⟩, Or.inr (Or.inr (Or.inl rfl))⟩
  · exact ⟨⟨fun ha => by linarith, fun _ hb => by linarith,
      fun _ hb => by linarith, fun _ => rfl⟩,
      Or.inr (Or.inr (Or.inr rfl))⟩

/-- C4 witness: the band characterization at size 3. -/
theorem symptom_band_spec_witness :
    ((3 < (2:ℚ) → symptom_band 3 = ["Mild headache"]) ∧
     (2 ≤ (3:ℚ) → (3:ℚ) < 4 → symptom_band 3 = ["Fatigue", "Blurred vision"]) ∧
     (4 ≤ (3:ℚ) → (3:ℚ) < 6 →
       symptom_band 3 = ["Memory loss", "Speech difficulty"]) ∧
     (6 ≤ (3:ℚ) → symptom_band 3 = ["Seizures", "Cognitive decline"])) ∧
    (symptom_band 3 = ["Mild headache"] ∨
     symptom_band 3 = ["Fatigue", "Blurred vision"] ∨
     symptom_band 3 = ["Memory loss", "Speech difficulty"] ∨
     symptom_band 3 = ["Seizures", "Cognitive decline"]) :=
  symptom_band_spec 3 (by norm_num)

/-- C5: for every tumor label, the current size of a simulated forecast lies
in the closed interval [2.0, 5.0]. -/
theorem simulate_size_in_domain (L : Label) (u : ℚ) (hu0 : 0 ≤ u) (hu1 : u ≤ 1)
    (f : GrowthForecast) (h : simulate L u = some f) :
    2 ≤ f.current_size_cm2 ∧ f.current_size_cm2 ≤ 5 := by
  rw [simulate_eq_some h]
  simp only [simulateTumor, draw_size]
  constructor <;> linarith

/-- C5 witness: the domain bounds for Meningioma at draw 1/2. -/
theorem simulate_size_in_domain_witness :
    2 ≤ (simulateTumor (1/2)).current_size_cm2 ∧
      (simulateTumor (1/2)).current_size_cm2 ≤ 5 :=
  simulate_size_in_domain .meningioma (1/2) (by norm_num) (by norm_num)
    (simulateTumor (1/2)) rfl

/-- C6: within one forecast the drawn size is stable: both symptom lists are
the band of the very size fields of the forecast, the projection is
current + rate × horizon, and the projected size is at least the current
size. -/
theorem simulate_draw_stable (L : Label) (u : ℚ) (f : GrowthForecast)
    (h : simulate L u = some f) :
    f.current_symptoms = symptom_band f.current_size_cm2 ∧
    f.future_symptoms = symptom_band f.projected_size_cm2 ∧
    f.projected_size_cm2 =
      f.current_size_cm2 + growth_rate * horizon_months ∧
    f.current_size_cm2 ≤ f.projected_size_cm2 := by
  rw [simulate_eq_some h]
  refine ⟨rfl, rfl, rfl, ?_⟩
  simp only [simulateTumor, draw_size, growth_rate, horizon_months]
  norm_num

/-- C6 witness: stability of the forecast for Pituitary at draw 1/2. -/
theorem simulate_draw_stable_witness :
    (simulateTumor (1/2)).current_symptoms =
      symptom_band (simulateTumor (1/2)).current_size_cm2 ∧
    (simulateTumor (1/2)).future_symptoms =
      symptom_band (simulateTumor (1/2)).projected_size_cm2 ∧
    (simulateTumor (1/2)).projected_size_cm2 =
      (simulateTumor (1/2)).current_size_cm2 +
        growth_rate * horizon_months ∧
    (simulateTumor (1/2)).current_size_cm2 ≤
      (simulateTumor (1/2)).projected_size_cm2 :=
  simulate_draw_stable .pituitary (1/2) (simulateTumor (1/2)) rfl

/-- C10: the band below 2.0 cm² is unreachable at the public interface: the
current size is at least 2.0 and the projected size at least 3.2, so neither
symptom list of a forecast is the Mild-headache band. -/
theorem mild_headache_unreachable (L : Label) (u : ℚ) (hu0 : 0 ≤ u)
    (hu1 : u ≤ 1) (f : GrowthForecast) (h : simulate L u = some f) :
    2 ≤ f.current_size_cm2 ∧ (3.2 : ℚ) ≤ f.projected_size_cm2 ∧
    f.current_symptoms ≠ ["Mild headache"] ∧
    f.future_symptoms ≠ ["Mild headache"] := by
  rw [simulate_eq_some h]
  have hc : 2 ≤ draw_size u := by simp only [draw_size]; linarith
  have hp : (3.2 : ℚ) ≤ draw_size u + growth_rate * horizon_months := by
    simp only [draw_size, growth_rate, horizon_months]
    norm_num
    linarith
  refine ⟨hc, hp, ?_, ?_⟩ <;>
    simp only [simulateTumor, symptom_band] <;>
    rw [if_neg (by linarith)] <;>
    split_ifs <;> decide

/-- C10 witness: unreachability for Glioma at draw 1/2. -/
theorem mild_headache_unreachable_witness :
    2 ≤ (simulateTumor (1/2)).current_size_cm2 ∧
    (3.2 : ℚ) ≤ (simulateTumor (1/2)).projected_size_cm2 ∧
    (simulateTumor (1/2)).current_symptoms ≠ ["Mild headache"] ∧
    (simulateTumor (1/2)).future_symptoms ≠ ["Mild headache"] :=
  mild_headache_unreachable .glioma (1/2) (by norm_num) (by norm_num)
    (simulateTumor (1/2)) rfl

/-- C7: on a valid classification whose winning label is No Tumor, assemble
returns the no-tumor shape with confidence the mass of No Tumor and the
fixed message, carries no forecast, and does not consult the simulator (its
result does not depend on the draw). -/
theorem assemble_no_tumor_path (c : ClassificationResult) (u : ℚ) (ts : String)
    (hv : validDistribution c = true) (hl : c.label = .noTumor) :
    assemble c u ts =
      .ok (.noTumorReport (probOf c "No Tumor") no_tumor_message ts) ∧
    (∀ u2 : ℚ, assemble c u2 ts = assemble c u ts) ∧
    ∀ r, assemble c u ts = .ok r →
      r.tumor_detected = false ∧ r.getForecast = none := by
  obtain ⟨l, probs⟩ := c
  simp only at hl
  subst hl
  refine ⟨by simp [assemble, hv], fun u2 => by simp [assemble, hv], ?_⟩
  intro r hr
  simp only [assemble, hv, if_true] at hr
  obtain rfl := (Except.ok.injEq _ _).mp hr.symm
  exact ⟨rfl, rfl⟩

/-- C7 witness: the no-tumor path on the example classification. -/
theorem assemble_no_tumor_path_witness :
    assemble exampleNoTumor (1/2) "2024-01-01T12:00:00" =
      .ok (.noTumorReport (probOf exampleNoTumor "No Tumor")
        no_tumor_message "2024-01-01T12:00:00") ∧
    (∀ u2 : ℚ, assemble exampleNoTumor u2 "2024-01-01T12:00:00" =
      assemble exampleNoTumor (1/2) "2024-01-01T12:00:00") ∧
    ∀ r, assemble exampleNoTumor (1/2) "2024-01-01T12:00:00" = .ok r →
      r.tumor_detected = false ∧ r.getForecast = none :=
  assemble_no_tumor_path exampleNoTumor (1/2) "2024-01-01T12:00:00"
    (by norm_num [validDistribution, probSum, prob_tolerance, exampleNoTumor,
      recognizedLabels]) rfl

/-- C8: assemble fails with InvalidClassification exactly when the
distribution fails validation (mass not within tolerance of 1, or an
unrecognized key), and on an invalid classification the result does not
depend on the draw, so the simulator is never consulted there. -/
theorem assemble_validation (c : ClassificationResult) (u : ℚ) (ts : String) :
    (validDistribution c = true ↔
      |probSum c - 1| ≤ prob_tolerance ∧
        ∀ p ∈ c.probabilities, p.1 ∈ recognizedLabels) ∧
    (assemble c u ts = .error .invalidClassification ↔
      validDistribution c = false) ∧
    (validDistribution c = false →
      ∀ u2 : ℚ, assemble c u2 ts = assemble c u ts) := by
  refine ⟨?_, ?_, ?_⟩
  · simp [validDistribution, List.all_eq_true]
  · cases hv : validDistribution c
    · simp [assemble, hv]
    · cases hl : c.label <;> simp [assemble, hv, hl]
  · intro hv u2
    simp [assemble, hv]

/-- C8 witness: the validation characterization at the malformed example
distribution. -/
theorem assemble_validation_witness :
    (validDistribution badDist = true ↔
      |probSum badDist - 1| ≤ prob_tolerance ∧
        ∀ p ∈ badDist.probabilities, p.1 ∈ recognizedLabels) ∧
    (assemble badDist (1/2) "t" = .error .invalidClassification ↔
      validDistribution badDist = false) ∧
    (validDistribution badDist = false →
      ∀ u2 : ℚ, assemble badDist u2 "t" = assemble badDist (1/2) "t") :=
  assemble_validation badDist (1/2) "t"

/-- C9: every tumor-detected report produced by assemble serializes to the
wire shape with exactly the contracted field names in order, and its
analysis_notes object carries exactly the keys size_estimation,
growth_model and symptoms. -/
theorem tumor_report_wire_fields (c : ClassificationResult) (u : ℚ)
    (ts : String) (r : DiagnosticReport) (hl : c.label ≠ .noTumor)
    (h : assemble c u ts = .ok r) :
    r.tumor_detected = true ∧
    (toWire r).map Prod.fst = tumor_report_field_names ∧
    ∃ notes : List (String × String),
      ("analysis_notes", WireValue.strMapV notes) ∈ toWire r ∧
      notes.map Prod.fst = ["size_estimation", "growth_model", "symptoms"] := by
  cases hv : validDistribution c
  · simp [assemble, hv] at h
  · cases hlab : c.label
    case noTumor => exact absurd hlab hl
    all_goals
      simp only [assemble, hv, if_true, hlab] at h
      obtain rfl := (Except.ok.injEq _ _).mp h.symm
      exact ⟨rfl, rfl,
        ⟨[("size_estimation", note_size_estimation),
          ("growth_model", note_growth_model),
          ("symptoms", note_symptoms)], by simp [toWire], rfl⟩⟩

/-- C9 witness: the wire fields of the report assembled from the Glioma
example classification. -/
theorem tumor_report_wire_fields_witness :
    (DiagnosticReport.tumorReport "Glioma" (probOf exampleGlioma "Glioma")
        (simulateTumor (1/2)) exampleGlioma.probabilities
        note_size_estimation note_growth_model note_symptoms
        "t").tumor_detected = true ∧
    (toWire (DiagnosticReport.tumorReport "Glioma"
        (probOf exampleGlioma "Glioma") (simulateTumor (1/2))
        exampleGlioma.probabilities note_size_estimation note_growth_model
        note_symptoms "t")).map Prod.fst = tumor_report_field_names ∧
    ∃ notes : List (String × String),
      ("analysis_notes", WireValue.strMapV notes) ∈
        toWire (DiagnosticReport.tumorReport "Glioma"
          (probOf exampleGlioma "Glioma") (simulateTumor (1/2))
          exampleGlioma.probabilities note_size_estimation note_growth_model
          note_symptoms "t") ∧
      notes.map Prod.fst = ["size_estimation", "growth_model", "symptoms"] :=
  tumor_report_wire_fields exampleGlioma (1/2) "t"
    (DiagnosticReport.tumorReport "Glioma" (probOf exampleGlioma "Glioma")
      (simulateTumor (1/2)) exampleGlioma.probabilities
      note_size_estimation note_growth_model note_symptoms "t")
    (by decide)
    (by
      have hv : validDistribution exampleGlioma = true := by
        norm_num [validDistribution, probSum, prob_tolerance, exampleGlioma,
          exampleDist, recognizedLabels]
      simp [assemble, hv, show exampleGlioma.label = Label.glioma from rfl,
        Label.name])

/-- C1: an admitted batch yields a result of the same length as the input,
in which slot i is determined solely by input i, so one failing image
neither shifts nor aborts any other slot. -/
theorem run_batch_isolation {Image : Type}
    (proc : Image → Except ErrorRecord DiagnosticReport)
    (images : List Image) (h1 : 1 ≤ images.length)
    (h2 : images.length ≤ max_batch_size) :
    ∃ r : BatchResult, run_batch proc images = .ok r ∧
      r.outcomes.length = images.length ∧
      (∀ i : ℕ, r.outcomes[i]? = (images[i]?).map (itemOutcome proc)) ∧
      r.succeeded = (r.outcomes.filter (fun o => o.isSuccess)).length ∧
      r.failed = (r.outcomes.filter (fun o => !o.isSuccess)).length := by
  refine ⟨_, run_batch_eq_ok proc images (by omega) (by omega), ?_, ?_, rfl, rfl⟩
  · simp
  · intro i
    simp [List.getElem?_map]

/-- C1 witness: the three-image batch whose middle image is undecodable. -/
theorem run_batch_isolation_witness :
    ∃ r : BatchResult, run_batch wProc wImages = .ok r ∧
      r.outcomes.length = wImages.length ∧
      (∀ i : ℕ, r.outcomes[i]? = (wImages[i]?).map (itemOutcome wProc)) ∧
      r.succeeded = (r.outcomes.filter (fun o => o.isSuccess)).length ∧
      r.failed = (r.outcomes.filter (fun o => !o.isSuccess)).length :=
  run_batch_isolation wProc wImages (by decide) (by decide)

/-- C2: a batch of zero images is rejected with EmptyBatch and one of more
than ten images with BatchTooLarge, in both cases without any per-image work
(the rejection is the same whatever the processing function does); a batch
of admissible size is admitted. -/
theorem run_batch_admission {Image : Type}
    (proc proc2 : Image → Except ErrorRecord DiagnosticReport)
    (images : List Image) :
    (images.length = 0 → run_batch proc images = .error .emptyBatch) ∧
    (max_batch_size < images.length →
      run_batch proc images = .error .batchTooLarge) ∧
    ((images.length = 0 ∨ max_batch_size < images.length) →
      run_batch proc images = run_batch proc2 images) ∧
    (1 ≤ images.length → images.length ≤ max_batch_size →
      ∃ r : BatchResult, run_batch proc images = .ok r) := by
  refine ⟨?_, ?_, ?_, ?_⟩
  · intro h
    simp [run_batch, h]
  · intro h
    have h0 : images.length ≠ 0 := by omega
    simp [run_batch, h0, h]
  · rintro (h | h)
    · simp [run_batch, h]
    · have h0 : images.length ≠ 0 := by omega
      simp [run_batch, h0, h]
  · intro h1 h2
    exact ⟨_, run_batch_eq_ok proc images (by omega) (by omega)⟩

/-- C2 witness: the rejections at sizes 0 and 11 and the admission at
size 3, on the example processing functions. -/
theorem run_batch_admission_witness :
    run_batch wProc ([] : List ℕ) = .error .emptyBatch ∧
    run_batch wProc [0, 1, 2, 3, 4, 5, 6, 7, 8, 9, 10] =
      .error .batchTooLarge ∧
    run_batch wProc [0, 1, 2, 3, 4, 5, 6, 7, 8, 9, 10] =
      run_batch wProc2 [0, 1, 2, 3, 4, 5, 6, 7, 8, 9, 10] ∧
    ∃ r : BatchResult, run_batch wProc wImages = .ok r :=
  ⟨(run_batch_admission wProc wProc2 ([] : List ℕ)).1 rfl,
   (run_batch_admission wProc wProc2 _).2.1 (by decide),
   (run_batch_admission wProc wProc2 _).2.2.1 (Or.inr (by decide)),
   (run_batch_admission wProc wProc2 wImages).2.2.2 (by decide) (by decide)⟩

end BrainTumor
